import Mathlib

/-!
Shallow embedding of the call-session core of the halcyon-ai-receptionist
repository: the intake-session state machine and scoring engine
(`src/services/intakeSession.ts`, `src/services/scoringEngine.ts`) and the
silence-timeout logic of the realtime client (`src/services/openaiRealtime.ts`).

JavaScript numbers are modelled as rationals (ℚ); `undefined`-able fields are
`Option`s; JS truthiness of strings/numbers is made explicit via `jsTruthy*`;
`Math.round` is `jsRound` (round half toward +∞); wall-clock values
(`new Date()`, `Date.now()`) are passed in explicitly through an `Env` record.
-/

/-- JS `Math.round`: round half toward +∞. -/
def jsRound (x : ℚ) : ℤ := ⌊x + 1/2⌋

/-- JS truthiness of a possibly-undefined number (`undefined`, `0` are falsy). -/
def jsTruthyQ : Option ℚ → Bool
  | none => false
  | some v => v != 0

/-- JS `x || d` for a possibly-undefined number. -/
def jsOrQ (x : Option ℚ) (d : ℚ) : ℚ :=
  if jsTruthyQ x then x.getD 0 else d

/-- JS truthiness of a possibly-undefined string (`undefined`, `""` are falsy). -/
def jsTruthyStr : Option String → Bool
  | none => false
  | some s => s != ""

/-- JS `x || y` for possibly-undefined strings. -/
def jsOrStr (x y : Option String) : Option String :=
  if jsTruthyStr x then x else y

/-- JS truthiness of a possibly-undefined boolean. -/
def jsTruthyB : Option Bool → Bool
  | none => false
  | some b => b

/-- ASCII lower-casing of one character (model of `String.toLowerCase`). -/
def asciiLowerChar (c : Char) : Char :=
  if 'A' ≤ c ∧ c ≤ 'Z' then Char.ofNat (c.toNat + 32) else c

/-- ASCII lower-casing of a string (model of JS `toLowerCase`). -/
def lowerStr (s : String) : String := String.mk (s.data.map asciiLowerChar)

/-- Does `needle` occur at the head of `hay`? -/
def matchesAt : List Char → List Char → Bool
  | [], _ => true
  | _ :: _, [] => false
  | c :: cs, d :: ds => c == d && matchesAt cs ds

/-- Does `needle` occur anywhere in `hay`? -/
def hasSubList (needle hay : List Char) : Bool :=
  match hay with
  | [] => matchesAt needle []
  | _ :: tl => matchesAt needle hay || hasSubList needle tl

/-- JS `hay.includes(needle)`: substring containment. -/
def containsSub (hay needle : String) : Bool := hasSubList needle.data hay.data

/-! ## Data model (`intakeSession.ts` interfaces) -/

inductive Severity where
  | mild | moderate | severe | disabling
deriving DecidableEq

inductive EducationLevel where
  | illiterate | marginal | limited | high_school | college
deriving DecidableEq

inductive LiftingLevel where
  | sedentary | light | medium | heavy | very_heavy
deriving DecidableEq

inductive AppStatus where
  | never_applied | waiting | denied_initial | denied_reconsideration
  | hearing_pending | hearing_scheduled
deriving DecidableEq

structure Demographics where
  firstName : Option String
  lastName : Option String
  dateOfBirth : Option String
  age : Option ℚ
  phone : Option String
  email : Option String
  city : Option String
  state : Option String
deriving DecidableEq

structure Education where
  level : Option EducationLevel
  details : Option String
deriving DecidableEq

structure MedicalInfo where
  conditions : List String
  severity : Option Severity
  durationMonths : Option ℚ
  treatments : List String
  hospitalizations : Option ℚ
  medications : List String
  sideEffects : List String
deriving DecidableEq

structure FunctionalLimitations where
  sittingMinutes : Option ℚ
  standingMinutes : Option ℚ
  walkingBlocks : Option ℚ
  liftingPounds : Option ℚ
  concentrationIssues : Option Bool
  memoryIssues : Option Bool
  socialDifficulties : Option Bool
  expectedAbsences : Option ℚ
  needsToLieDown : Option Bool
  assistiveDevices : List String
deriving DecidableEq

structure Job where
  title : String
  years : ℚ
deriving DecidableEq

structure WorkHistory where
  jobs : List Job
  heaviestLifting : Option LiftingLevel
  totalWorkYears : Option ℚ
  lastWorkDate : Option String
  currentlyWorking : Option Bool
deriving DecidableEq

structure ApplicationStatus where
  hasApplied : Option Bool
  status : Option AppStatus
  denialDate : Option String
  hearingDate : Option String
deriving DecidableEq

structure SmsConsent where
  consentGiven : Bool
  consentTimestamp : Option ℚ
  phoneNumber : Option String
deriving DecidableEq

structure TranscriptEntry where
  role : Bool          -- true = assistant, false = user
  text : String
  timestamp : ℚ
deriving DecidableEq

structure IntakeData where
  demographics : Demographics
  education : Education
  medical : MedicalInfo
  functionalLimitations : FunctionalLimitations
  workHistory : WorkHistory
  application : ApplicationStatus
  smsConsent : SmsConsent
  notes : String
  transcript : List TranscriptEntry
deriving DecidableEq

inductive Recommendation where
  | highly_recommended | recommended | consider_caution | weak_case | not_recommended
deriving DecidableEq

structure ScoringResult where
  totalScore : ℤ
  recommendation : Recommendation
  viabilityRating : String
  approvalLikelihood : String
  caseStrengths : List String
  caseConcerns : List String
  callbackTimeframe : String
deriving DecidableEq

structure CallFlags where
  urgent : Bool
  urgentReason : Option String
  crisisMentioned : Bool
  transferRequested : Bool
deriving DecidableEq

/-- `config.scoring` / `config.callbacks` values (env-configurable; defaults
70/45/25/10 and 24/48). -/
structure ScoringConfig where
  highlyRecommended : ℤ
  recommended : ℤ
  considerCaution : ℤ
  weakCase : ℤ
  cbHighPriority : ℤ
  cbMediumPriority : ℤ
deriving DecidableEq

def defaultScoringConfig : ScoringConfig := ⟨70, 45, 25, 10, 24, 48⟩

/-- The empty `IntakeData` created at session start (before caller-ID
prepopulation of phone/city/state). -/
def emptyIntakeData : IntakeData :=
  { demographics := ⟨none, none, none, none, none, none, none, none⟩
    education := ⟨none, none⟩
    medical := ⟨[], none, none, [], none, [], []⟩
    functionalLimitations := ⟨none, none, none, none, none, none, none, none, none, []⟩
    workHistory := ⟨[], none, none, none, none⟩
    application := ⟨none, none, none, none⟩
    smsConsent := ⟨false, none, none⟩
    notes := ""
    transcript := [] }

/-! ## Scoring engine (`scoringEngine.ts`) -/

structure CondEntry where
  key : String
  baseScore : ℚ
  approvalRate : ℚ
  category : String
  blueBookSection : Option String
deriving DecidableEq

/-- The `CONDITION_SCORES` reference table, in source (insertion) order. -/
def CONDITION_SCORES : List CondEntry := [
  -- HIGH APPROVAL CONDITIONS
  ⟨"cancer", 30, 0.85, "cancer", some "13.00"⟩,
  ⟨"multiple sclerosis", 25, 0.80, "neurological", some "11.09"⟩,
  ⟨"ms", 25, 0.80, "neurological", some "11.09"⟩,
  ⟨"als", 35, 0.95, "neurological", some "11.10"⟩,
  ⟨"lou gehrig", 35, 0.95, "neurological", none⟩,
  ⟨"parkinson", 28, 0.82, "neurological", some "11.06"⟩,
  ⟨"heart failure", 25, 0.78, "cardiovascular", some "4.02"⟩,
  ⟨"chf", 25, 0.78, "cardiovascular", none⟩,
  ⟨"congestive heart failure", 25, 0.78, "cardiovascular", none⟩,
  ⟨"copd", 22, 0.85, "respiratory", some "3.02"⟩,
  ⟨"emphysema", 20, 0.80, "respiratory", none⟩,
  ⟨"dialysis", 28, 0.88, "renal", none⟩,
  ⟨"kidney failure", 25, 0.85, "renal", none⟩,
  -- MUSCULOSKELETAL
  ⟨"back pain", 20, 0.63, "musculoskeletal", some "1.15"⟩,
  ⟨"chronic back pain", 20, 0.63, "musculoskeletal", none⟩,
  ⟨"herniated disc", 22, 0.65, "musculoskeletal", none⟩,
  ⟨"degenerative disc", 20, 0.62, "musculoskeletal", none⟩,
  ⟨"spinal stenosis", 22, 0.68, "musculoskeletal", none⟩,
  ⟨"arthritis", 18, 0.55, "musculoskeletal", some "1.18"⟩,
  ⟨"osteoarthritis", 18, 0.55, "musculoskeletal", none⟩,
  ⟨"rheumatoid arthritis", 22, 0.70, "musculoskeletal", none⟩,
  ⟨"fibromyalgia", 15, 0.45, "musculoskeletal", none⟩,
  ⟨"lupus", 22, 0.72, "immune", some "14.02"⟩,
  -- MENTAL HEALTH
  ⟨"depression", 18, 0.59, "mental", some "12.04"⟩,
  ⟨"major depression", 20, 0.62, "mental", none⟩,
  ⟨"major depressive disorder", 20, 0.62, "mental", none⟩,
  ⟨"bipolar", 22, 0.68, "mental", some "12.04"⟩,
  ⟨"bipolar disorder", 22, 0.68, "mental", none⟩,
  ⟨"anxiety", 16, 0.52, "mental", some "12.06"⟩,
  ⟨"generalized anxiety", 16, 0.52, "mental", none⟩,
  ⟨"ptsd", 20, 0.60, "mental", some "12.15"⟩,
  ⟨"post traumatic stress", 20, 0.60, "mental", none⟩,
  ⟨"schizophrenia", 28, 0.78, "mental", some "12.03"⟩,
  ⟨"panic disorder", 18, 0.55, "mental", none⟩,
  ⟨"ocd", 18, 0.55, "mental", none⟩,
  ⟨"autism", 22, 0.65, "mental", some "12.10"⟩,
  -- NEUROLOGICAL
  ⟨"neuropathy", 18, 0.58, "neurological", some "11.14"⟩,
  ⟨"peripheral neuropathy", 18, 0.58, "neurological", none⟩,
  ⟨"epilepsy", 22, 0.65, "neurological", some "11.02"⟩,
  ⟨"seizures", 22, 0.65, "neurological", none⟩,
  ⟨"stroke", 20, 0.60, "neurological", none⟩,
  ⟨"migraine", 14, 0.40, "neurological", none⟩,
  ⟨"traumatic brain injury", 22, 0.65, "neurological", some "11.18"⟩,
  ⟨"tbi", 22, 0.65, "neurological", none⟩,
  -- SPECIAL CONDITIONS
  ⟨"pots", 16, 0.45, "cardiovascular", none⟩,
  ⟨"dysautonomia", 16, 0.45, "cardiovascular", none⟩,
  ⟨"ehlers danlos", 16, 0.48, "musculoskeletal", none⟩,
  ⟨"eds", 16, 0.48, "musculoskeletal", none⟩,
  ⟨"crps", 20, 0.55, "neurological", none⟩,
  ⟨"complex regional pain", 20, 0.55, "neurological", none⟩,
  ⟨"chiari", 18, 0.50, "neurological", none⟩,
  -- OTHER
  ⟨"diabetes", 12, 0.40, "endocrine", none⟩,
  ⟨"sleep apnea", 10, 0.35, "respiratory", none⟩,
  ⟨"chronic fatigue", 12, 0.38, "immune", none⟩,
  ⟨"hypertension", 8, 0.25, "cardiovascular", none⟩]

def HIGH_SEVERITY_MEDS : List String := [
  "oxycodone", "morphine", "fentanyl", "hydrocodone", "percocet", "vicodin", "norco", "dilaudid",
  "seroquel", "zyprexa", "risperdal", "abilify", "clozapine", "haldol",
  "lithium", "depakote", "lamictal",
  "humira", "enbrel", "remicade", "methotrexate"]

def MODERATE_SEVERITY_MEDS : List String := [
  "gabapentin", "lyrica", "cymbalta", "tramadol",
  "zoloft", "lexapro", "prozac", "effexor", "wellbutrin",
  "klonopin", "xanax", "ativan", "valium"]

/-- Step 1 of `calculateScore`: age multiplier plus narrative
(multiplier, strengths, concerns). -/
def ageFactor (age : ℚ) : ℚ × List String × List String :=
  if age ≥ 60 then
    (1.5, ["Age 60+ (Approaching Retirement Age - most favorable Grid Rules)"], [])
  else if age ≥ 55 then
    (1.35, ["Age 55-59 (Advanced Age - significant Grid Rule advantage)"], [])
  else if age ≥ 50 then
    (1.15, ["Age 50-54 (Closely Approaching Advanced Age - Grid Rule advantage)"], [])
  else if age < 50 then
    (0.7, [], ["Under 50 (must meet or equal a listing, or have severe limitations)"])
  else (0.7, [], [])

/-- Step 2: education bonus (bonus, strengths, concerns). -/
def educationFactor (level : Option EducationLevel) (age : ℚ) : ℚ × List String × List String :=
  match level with
  | some .illiterate =>
      (if age ≥ 50 then 8 else 3, ["Marginal/Limited education (favorable for Grid Rules)"], [])
  | some .marginal =>
      (if age ≥ 50 then 8 else 3, ["Marginal/Limited education (favorable for Grid Rules)"], [])
  | some .limited =>
      (if age ≥ 50 then 5 else 2, ["Limited education (7th-11th grade - Grid Rule favorable)"], [])
  | some .college =>
      (-5, [], ["College education (transferable skills may be assumed)"])
  | some .high_school => (0, [], [])
  | none => (0, [], [])

/-- `getSeverityMultiplier` (default applies when severity is unset). -/
def severityMultiplier (severity : Option Severity) : ℚ :=
  match severity with
  | some .disabling => 1.2
  | some .severe => 1
  | some .moderate => 0.75
  | some .mild => 0.6
  | none => 0.8

/-- The inner `for (const [key, value] of Object.entries(CONDITION_SCORES))`
loop with its `break`: the first entry whose key is contained in the
(already lower-cased) condition string. -/
def findCond : List CondEntry → String → Option CondEntry
  | [], _ => none
  | e :: rest, conditionLower =>
      if containsSub conditionLower e.key then some e else findCond rest conditionLower

/-- Score contributed by one matched table entry. -/
def condEntryScore (e : CondEntry) (severity : Option Severity) (age : ℚ) : ℚ :=
  let ssaMultiplier := 0.3 + e.approvalRate * 2.5
  e.baseScore * ssaMultiplier * severityMultiplier severity
    + (if age ≥ 55 then 10 else if age ≥ 50 then 5 else 0)

structure CondAcc where
  score : ℚ
  hasMental : Bool
  hasPhysical : Bool
deriving DecidableEq

/-- Contribution of one free-text condition string: first table match wins,
otherwise the default score `10 * severityMultiplier`. -/
def condStep (table : List CondEntry) (severity : Option Severity) (age : ℚ)
    (condition : String) : CondAcc :=
  match findCond table (lowerStr condition) with
  | some e => ⟨condEntryScore e severity age, e.category == "mental", e.category != "mental"⟩
  | none => ⟨10 * severityMultiplier severity, false, false⟩

/-- Step 3: the outer loop over `data.medical.conditions`. -/
def condLoop (table : List CondEntry) (severity : Option Severity) (age : ℚ) :
    List String → CondAcc
  | [] => ⟨0, false, false⟩
  | c :: rest =>
      let one := condStep table severity age c
      let acc := condLoop table severity age rest
      ⟨one.score + acc.score, one.hasMental || acc.hasMental, one.hasPhysical || acc.hasPhysical⟩

/-- Step 4: multiple-conditions bonus (bonus, strengths). -/
def multiCondFactor (n : ℕ) : ℚ × List String :=
  if n ≥ 4 then (25, ["4+ medical conditions (significant combined effect)"])
  else if n ≥ 3 then (18, ["3 medical conditions (combined effect consideration)"])
  else if n ≥ 2 then (10, ["Multiple medical conditions"])
  else (0, [])

/-- Step 5: mental + physical comorbidity bonus. -/
def comorbidityFactor (hasMental hasPhysical : Bool) : ℚ × List String :=
  if hasMental && hasPhysical then
    (15, ["Mental + Physical conditions (erodes occupational base)"])
  else (0, [])

/-- Step 6 per-medication contribution. -/
def medContrib (med : String) : ℚ :=
  if HIGH_SEVERITY_MEDS.any (fun m => containsSub (lowerStr med) m) then 15
  else if MODERATE_SEVERITY_MEDS.any (fun m => containsSub (lowerStr med) m) then 8
  else 3

/-- Step 6: polypharmacy bonus (bonus, strengths). -/
def polypharmacyFactor (n : ℕ) : ℚ × List String :=
  if n ≥ 10 then (15, ["10+ medications (high treatment complexity)"])
  else if n ≥ 7 then (10, [])
  else if n ≥ 5 then (5, ["5+ medications (polypharmacy)"])
  else (0, [])

/-- Step 6: side-effects bonus, capped at 15. -/
def sideEffectBonus (n : ℕ) : ℚ :=
  if n > 0 then min ((n : ℚ) * 5) 15 else 0

/-- Step 7: functional-limitation contributions (score, strengths), in
source order. -/
def functionalFactor (fl : FunctionalLimitations) : ℚ × List String :=
  let lift : ℚ × List String :=
    match fl.liftingPounds with
    | some v =>
        if v ≤ 10 then (25, ["Sedentary lifting capacity (10 lbs or less)"])
        else if v ≤ 20 then (15, ["Light work capacity (20 lbs or less)"])
        else (0, [])
    | none => (0, [])
  let sit : ℚ × List String :=
    match fl.sittingMinutes with
    | some v => if v ≤ 30 then (20, ["Cannot sit for extended periods (erodes sedentary base)"]) else (0, [])
    | none => (0, [])
  let stand : ℚ × List String :=
    match fl.standingMinutes with
    | some v => if v ≤ 15 then (18, ["Cannot stand more than 15 minutes"]) else (0, [])
    | none => (0, [])
  let walk : ℚ :=
    match fl.walkingBlocks with
    | some v => if v ≤ 1 then 15 else 0
    | none => 0
  let conc : ℚ × List String :=
    if jsTruthyB fl.concentrationIssues then (12, ["Concentration difficulties (impacts work pace)"]) else (0, [])
  let mem : ℚ := if jsTruthyB fl.memoryIssues then 10 else 0
  let soc : ℚ × List String :=
    if jsTruthyB fl.socialDifficulties then (12, ["Social interaction difficulties"]) else (0, [])
  let abse : ℚ × List String :=
    match fl.expectedAbsences with
    | some v => if v ≥ 2 then (25, ["Would miss 2+ days/month (precludes competitive employment)"]) else (0, [])
    | none => (0, [])
  let lie : ℚ × List String :=
    if jsTruthyB fl.needsToLieDown then (15, ["Needs to lie down during day"]) else (0, [])
  let dev : ℚ × List String :=
    if fl.assistiveDevices.length > 0 then
      ((fl.assistiveDevices.length : ℚ) * 5,
        ["Uses assistive devices: " ++ String.intercalate ", " fl.assistiveDevices])
    else (0, [])
  (lift.1 + sit.1 + stand.1 + walk + conc.1 + mem + soc.1 + abse.1 + lie.1 + dev.1,
   lift.2 ++ sit.2 ++ stand.2 ++ conc.2 ++ soc.2 ++ abse.2 ++ lie.2 ++ dev.2)

def unskilledKeywords : List String :=
  ["warehouse", "factory", "labor", "construction", "cleaning", "cashier", "assembly"]

/-- Step 8: work-history contributions (score, strengths, concerns). -/
def workFactor (wh : WorkHistory) : ℚ × List String × List String :=
  let demand : ℚ × List String × List String :=
    match wh.heaviestLifting with
    | some .very_heavy => (25, ["Very heavy work history (100+ lbs)"], [])
    | some .heavy => (20, ["Heavy work history (50-100 lbs)"], [])
    | some .medium => (15, [], [])
    | some .sedentary => (-10, [], ["Sedentary work history (transferable skills to desk work)"])
    | some .light => (0, [], [])
    | none => (0, [], [])
  let hasUnskilled :=
    wh.jobs.any (fun j => unskilledKeywords.any (fun k => containsSub (lowerStr j.title) k))
  let unsk : ℚ × List String :=
    if hasUnskilled then (15, ["Unskilled work history (no transferable skills)"]) else (0, [])
  let tenure : ℚ × List String :=
    if jsTruthyQ wh.totalWorkYears ∧ wh.totalWorkYears.getD 0 ≥ 20 then
      (10, ["20+ years work history (credibility factor)"])
    else (0, [])
  (demand.1 + unsk.1 + tenure.1, demand.2.1 ++ unsk.2 ++ tenure.2, demand.2.2)

/-- Step 9: grid-rule composite bonus (bonus, strengths); note the JS
`fl.liftingPounds || 50` default. -/
def limitedEducationOf (level : Option EducationLevel) : Bool :=
  level == some .limited || level == some .marginal || level == some .illiterate

def gridFactor (age : ℚ) (level : Option EducationLevel) (fl : FunctionalLimitations) :
    ℚ × List String :=
  let limitedEducation := limitedEducationOf level
  if age ≥ 60 ∧ jsOrQ fl.liftingPounds 50 ≤ 20 then
    (35, ["Grid Rule 202.01 may apply (60+, light RFC)"])
  else if age ≥ 55 ∧ limitedEducation ∧ jsOrQ fl.liftingPounds 50 ≤ 20 then
    (30, ["Grid Rule 202.04 may apply (55+, limited education, light RFC)"])
  else if age ≥ 50 ∧ limitedEducation ∧ jsOrQ fl.liftingPounds 50 ≤ 10 then
    (25, ["Grid Rule 201.14 may apply (50+, limited education, sedentary RFC)"])
  else (0, [])

/-- Step 10: hospitalizations (`data.medical.hospitalizations || 0`). -/
def hospFactor (h : ℚ) : ℚ × List String :=
  if h ≥ 3 then (10, ["3+ hospitalizations in past year"])
  else if h ≥ 1 then (h * 3, [])
  else (0, [])

/-- `data.demographics.age || 0`. -/
def ageOf (data : IntakeData) : ℚ := jsOrQ data.demographics.age 0

/-- The accumulated raw score just before the final age-multiplier
application (steps 2-10 of `calculateScore`). -/
def rawTotal (data : IntakeData) : ℚ :=
  let age := ageOf data
  let cond := condLoop CONDITION_SCORES data.medical.severity age data.medical.conditions
  (educationFactor data.education.level age).1
    + cond.score
    + (multiCondFactor data.medical.conditions.length).1
    + (comorbidityFactor cond.hasMental cond.hasPhysical).1
    + (data.medical.medications.map medContrib).sum
    + (polypharmacyFactor data.medical.medications.length).1
    + sideEffectBonus data.medical.sideEffects.length
    + (functionalFactor data.functionalLimitations).1
    + (workFactor data.workHistory).1
    + (gridFactor age data.education.level data.functionalLimitations).1
    + (hospFactor (jsOrQ data.medical.hospitalizations 0)).1

/-- Step 11: 70% untouched, 30% scaled by the age multiplier. -/
def finalScoreQ (data : IntakeData) : ℚ :=
  let t := rawTotal data
  t * 0.7 + (t * 0.3) * (ageFactor (ageOf data)).1

/-- Step 12: round to nearest integer, clamp to [0,100]. -/
def totalScoreZ (data : IntakeData) : ℤ :=
  max 0 (min 100 (jsRound (finalScoreQ data)))

/-- `getRecommendation`: tier lookup against the configured thresholds. -/
def getRecommendation (cfg : ScoringConfig) (score : ℤ) :
    Recommendation × String × String × String :=
  if score ≥ cfg.highlyRecommended then
    (.highly_recommended, "Very High", "80%+", toString cfg.cbHighPriority ++ " hours")
  else if score ≥ cfg.recommended then
    (.recommended, "High", "60-80%", toString cfg.cbMediumPriority ++ " hours")
  else if score ≥ cfg.considerCaution then
    (.consider_caution, "Medium", "40-60%", "3-5 business days")
  else if score ≥ cfg.weakCase then
    (.weak_case, "Low", "20-40%", "5-7 business days")
  else
    (.not_recommended, "Very Low", "<20%", "as time permits")

/-- Narrative strengths, in the order `calculateScore` pushes them. -/
def caseStrengthsOf (data : IntakeData) : List String :=
  let age := ageOf data
  let cond := condLoop CONDITION_SCORES data.medical.severity age data.medical.conditions
  (ageFactor age).2.1
    ++ (educationFactor data.education.level age).2.1
    ++ (multiCondFactor data.medical.conditions.length).2
    ++ (comorbidityFactor cond.hasMental cond.hasPhysical).2
    ++ (polypharmacyFactor data.medical.medications.length).2
    ++ (functionalFactor data.functionalLimitations).2
    ++ (workFactor data.workHistory).2.1
    ++ (gridFactor age data.education.level data.functionalLimitations).2
    ++ (hospFactor (jsOrQ data.medical.hospitalizations 0)).2

/-- Narrative concerns, in the order `calculateScore` pushes them. -/
def caseConcernsOf (data : IntakeData) : List String :=
  let age := ageOf data
  (ageFactor age).2.2
    ++ (educationFactor data.education.level age).2.2
    ++ (workFactor data.workHistory).2.2

/-- `ScoringEngine.calculateScore`. -/
def calculateScore (cfg : ScoringConfig) (data : IntakeData) : ScoringResult :=
  let totalScore := totalScoreZ data
  let r := getRecommendation cfg totalScore
  { totalScore := totalScore
    recommendation := r.1
    viabilityRating := r.2.1
    approvalLikelihood := r.2.2.1
    caseStrengths := caseStrengthsOf data
    caseConcerns := caseConcernsOf data
    callbackTimeframe := r.2.2.2 }

/-! ## Intake session state machine (`intakeSession.ts`)

Wall-clock reads (`new Date()`, `Date.now()`, date parsing) and the
success/failure of external collaborators (SMS service, callback DB write)
are supplied through an `Env` record.  Narrative strings in operation results
that no property depends on (closing guidance, crisis instructions) are
elided from `FnResult`; the guidance selection logic itself is kept. -/

structure CallerInfo where
  callerPhone : String
  callerCity : String
  callerState : String
deriving DecidableEq

structure SessionState where
  callerInfo : CallerInfo
  data : IntakeData
  flags : CallFlags
  outcome : Option String
  scoring : Option ScoringResult
deriving DecidableEq

/-- Session construction: caller-ID prepopulation of phone/city/state. -/
def initSession (ci : CallerInfo) : SessionState :=
  { callerInfo := ci
    data := { emptyIntakeData with
      demographics := { emptyIntakeData.demographics with
        phone := some ci.callerPhone
        city := some ci.callerCity
        state := some ci.callerState } }
    flags := ⟨false, none, false, false⟩
    outcome := some "in_progress"
    scoring := none }

structure Env where
  cfg : ScoringConfig
  smsEnabled : Bool          -- config.sms.enabled
  skinnyEnabled : Bool       -- skinnyAppClient.isEnabled()
  skinnyFallback : Bool      -- skinnyAppClient.shouldFallbackToLocal()
  nowMs : ℚ                  -- Date.now() / new Date().getTime()
  todayY : ℤ
  todayM : ℤ
  todayD : ℤ
  parseDateMs : String → ℚ   -- new Date(s).getTime()
  parseDateY : String → ℤ    -- new Date(s).getFullYear()
  parseDateM : String → ℤ
  parseDateD : String → ℤ
  smsOk : Bool               -- whether smsService.sendConfirmation resolves
  dbCallbackOk : Bool        -- whether db.saveCallbackRequest resolves

/-- The argument object of a function call; every key an operation reads,
absent = `undefined`.  (In JS, an absent `conditions`/`medications`/`jobs`
array would make the operation throw on the subsequent `.some`/`.length`
access; we model those as the empty list.) -/
structure FnArgs where
  first_name : Option String := none
  last_name : Option String := none
  date_of_birth : Option String := none
  phone : Option String := none
  email : Option String := none
  city : Option String := none
  state : Option String := none
  education_level : Option EducationLevel := none
  details : Option String := none
  conditions : Option (List String) := none
  severity : Option Severity := none
  duration_months : Option ℚ := none
  treatments : Option (List String) := none
  hospitalizations : Option ℚ := none
  medications : Option (List String) := none
  side_effects : Option (List String) := none
  sitting_minutes : Option ℚ := none
  standing_minutes : Option ℚ := none
  walking_blocks : Option ℚ := none
  lifting_pounds : Option ℚ := none
  concentration_issues : Option Bool := none
  memory_issues : Option Bool := none
  social_difficulties : Option Bool := none
  expected_absences : Option ℚ := none
  needs_to_lie_down : Option Bool := none
  assistive_devices : Option (List String) := none
  jobs : Option (List Job) := none
  heaviest_lifting : Option LiftingLevel := none
  total_work_years : Option ℚ := none
  last_work_date : Option String := none
  currently_working : Option Bool := none
  has_applied : Option Bool := none
  status : Option AppStatus := none
  denial_date : Option String := none
  hearing_date : Option String := none
  consent_given : Option Bool := none
  phone_number : Option String := none
  notes : Option String := none
  reason : Option String := none
  crisis_mentioned : Option Bool := none
  outcome : Option String := none
  send_sms : Option Bool := none
  caller_name : Option String := none
  purpose : Option String := none
  category : Option String := none
  is_urgent : Option Bool := none
deriving DecidableEq

inductive FnResult where
  | errResult (msg : String)                     -- { error: ... }
  | demographicsAck (age : ℚ) (guidance : Option String)
  | simpleAck (guidance : Option String)         -- { recorded: true, guidance? }
  | statusAck (warning : Option String)          -- { recorded: true, warning? }
  | consentAck (granted : Bool)
  | assessmentAck (score : ℤ) (recommendation : Recommendation)
  | urgentAck (crisis : Bool)
  | transferAck
  | endCallAck (smsSent : Bool)
  | callbackAck (ok : Bool)
deriving DecidableEq

/-- External side effects an operation (or finalize) performs. -/
inductive Effect where
  | logInfo (event : String) (reason : String)
  | smsConfirmation (phone : String)      -- smsService.sendConfirmation attempt
  | dbSaveCallback
  | emailMessageNotify                    -- emailService.sendMessageNotification
  | dbSaveIntake                          -- db.saveIntake
  | emailIntakeNotify                     -- emailService.sendIntakeNotification
  | emailClientConfirm                    -- emailService.sendClientConfirmation
  | skinnySubmit                          -- skinnyAppClient.submitAssessment attempt
deriving DecidableEq

/-- Age derivation from date of birth (source lines in `recordDemographics`). -/
def computeAge (env : Env) (dob : String) : ℤ :=
  let age := env.todayY - env.parseDateY dob
  let monthDiff := env.todayM - env.parseDateM dob
  if monthDiff < 0 ∨ (monthDiff = 0 ∧ env.todayD < env.parseDateD dob) then age - 1 else age

def recordDemographics (env : Env) (s : SessionState) (args : FnArgs) :
    SessionState × FnResult × List Effect :=
  let d0 := s.data.demographics
  let d1 : Demographics :=
    { firstName := args.first_name
      lastName := args.last_name
      dateOfBirth := args.date_of_birth
      age := d0.age
      phone := jsOrStr args.phone d0.phone
      email := args.email
      city := jsOrStr args.city d0.city
      state := jsOrStr args.state d0.state }
  let d2 :=
    if jsTruthyStr d1.dateOfBirth then
      { d1 with age := some ((computeAge env (d1.dateOfBirth.getD "") : ℤ) : ℚ) }
    else d1
  let age := jsOrQ d2.age 0
  let guidance : Option String :=
    if age ≥ 55 then
      some "This caller is in the Advanced Age category (55+), which provides significant advantages under SSA Grid Rules."
    else if age ≥ 50 then
      some "This caller is in the Closely Approaching Advanced Age category (50-54), which provides some Grid Rule advantages."
    else none
  ({ s with data := { s.data with demographics := d2 } }, .demographicsAck age guidance, [])

def recordEducation (s : SessionState) (args : FnArgs) :
    SessionState × FnResult × List Effect :=
  let s1 := { s with data := { s.data with education := ⟨args.education_level, args.details⟩ } }
  let age := jsOrQ s1.data.demographics.age 0
  let level := s1.data.education.level
  let guidance : Option String :=
    if (level = some .limited ∨ level = some .marginal) ∧ age ≥ 50 then
      some "Limited education combined with age 50+ is favorable under Grid Rules. This strengthens the case."
    else none
  (s1, .simpleAck guidance, [])

/-- High-approval keywords checked by `recordMedicalConditions` guidance. -/
def highApprovalKeywords : List String :=
  ["cancer", "multiple sclerosis", "ms", "als", "copd", "heart failure", "chf"]

def recordMedicalConditions (s : SessionState) (args : FnArgs) :
    SessionState × FnResult × List Effect :=
  let m0 := s.data.medical
  let m1 : MedicalInfo :=
    { m0 with
      conditions := args.conditions.getD []
      severity := args.severity
      durationMonths := args.duration_months
      treatments := args.treatments.getD []
      hospitalizations := args.hospitalizations }
  let s1 := { s with data := { s.data with medical := m1 } }
  let hasHighApproval :=
    m1.conditions.any (fun c => highApprovalKeywords.any (fun h => containsSub (lowerStr c) h))
  let guidance : Option String :=
    if hasHighApproval then
      some "One or more conditions have high approval rates. This is a strong case indicator."
    else if m1.conditions.length ≥ 3 then
      some "Multiple conditions documented. Combined effect may qualify even if individual conditions don\x27t meet listings."
    else none
  (s1, .simpleAck guidance, [])

/-- Opioid keywords checked by `recordMedications` guidance. -/
def opioidKeywords : List String :=
  ["oxycodone", "morphine", "fentanyl", "hydrocodone", "percocet", "vicodin"]

def recordMedications (s : SessionState) (args : FnArgs) :
    SessionState × FnResult × List Effect :=
  let m0 := s.data.medical
  let m1 := { m0 with
    medications := args.medications.getD []
    sideEffects := args.side_effects.getD [] }
  let s1 := { s with data := { s.data with medical := m1 } }
  let hasOpioids :=
    m1.medications.any (fun m => opioidKeywords.any (fun o => containsSub (lowerStr m) o))
  let guidance : Option String :=
    if hasOpioids then
      some "Opioid medications indicate significant chronic pain. This supports case severity."
    else if m1.medications.length ≥ 5 then
      some "Polypharmacy (5+ medications) indicates complex medical situation."
    else none
  (s1, .simpleAck guidance, [])

def recordFunctionalLimitations (s : SessionState) (args : FnArgs) :
    SessionState × FnResult × List Effect :=
  let fl : FunctionalLimitations :=
    { sittingMinutes := args.sitting_minutes
      standingMinutes := args.standing_minutes
      walkingBlocks := args.walking_blocks
      liftingPounds := args.lifting_pounds
      concentrationIssues := args.concentration_issues
      memoryIssues := args.memory_issues
      socialDifficulties := args.social_difficulties
      expectedAbsences := args.expected_absences
      needsToLieDown := args.needs_to_lie_down
      assistiveDevices := args.assistive_devices.getD [] }
  let s1 := { s with data := { s.data with functionalLimitations := fl } }
  let criticalLimitations : List String :=
    (if jsTruthyQ fl.liftingPounds ∧ fl.liftingPounds.getD 0 ≤ 10 then
      ["sedentary lifting capacity"] else [])
    ++ (if jsTruthyQ fl.sittingMinutes ∧ fl.sittingMinutes.getD 0 ≤ 30 then
      ["cannot sit for extended periods"] else [])
    ++ (if jsTruthyQ fl.expectedAbsences ∧ fl.expectedAbsences.getD 0 ≥ 2 then
      ["would miss 2+ days/month (precludes competitive employment)"] else [])
  let guidance : Option String :=
    if criticalLimitations.length > 0 then
      some ("Critical limitations identified: " ++ String.intercalate ", " criticalLimitations
        ++ ". These are strong case factors.")
    else none
  (s1, .simpleAck guidance, [])

/-- Unskilled keywords checked by `recordWorkHistory` guidance (note: unlike
the scoring engine, this list has no "assembly"). -/
def sessionUnskilledKeywords : List String :=
  ["warehouse", "factory", "labor", "construction", "cleaning", "cashier"]

def recordWorkHistory (s : SessionState) (args : FnArgs) :
    SessionState × FnResult × List Effect :=
  let wh : WorkHistory :=
    { jobs := args.jobs.getD []
      heaviestLifting := args.heaviest_lifting
      totalWorkYears := args.total_work_years
      lastWorkDate := args.last_work_date
      currentlyWorking := args.currently_working }
  let s1 := { s with data := { s.data with workHistory := wh } }
  let hasUnskilled :=
    wh.jobs.any (fun j => sessionUnskilledKeywords.any (fun k => containsSub (lowerStr j.title) k))
  let guidance : Option String :=
    if hasUnskilled ∧ (wh.heaviestLifting = some .heavy ∨ wh.heaviestLifting = some .very_heavy) then
      some "Unskilled heavy work history with no transferable skills. Very favorable for Grid Rules."
    else none
  (s1, .simpleAck guidance, [])

def recordApplicationStatus (env : Env) (s : SessionState) (args : FnArgs) :
    SessionState × FnResult × List Effect :=
  let app : ApplicationStatus :=
    ⟨args.has_applied, args.status, args.denial_date, args.hearing_date⟩
  let s1 := { s with data := { s.data with application := app } }
  if jsTruthyStr app.denialDate ∧
      ⌊(env.nowMs - env.parseDateMs (app.denialDate.getD "")) / (1000 * 60 * 60 * 24)⌋ ≥ 45 then
    ({ s1 with flags := { s1.flags with
        urgent := true
        urgentReason := some "Appeal deadline approaching (60 days from denial)" } },
     .statusAck (some "URGENT: Appeal deadline may be approaching. Only 60 days from denial date to appeal."),
     [])
  else if app.status = some .hearing_scheduled then
    ({ s1 with flags := { s1.flags with
        urgent := true
        urgentReason := some "Hearing scheduled" } },
     .statusAck (some "URGENT: Hearing is scheduled. Attorney review needed immediately."),
     [])
  else (s1, .statusAck none, [])

def recordSmsConsent (env : Env) (s : SessionState) (args : FnArgs) :
    SessionState × FnResult × List Effect :=
  let consentGiven := jsTruthyB args.consent_given
  let phoneNumber := jsOrStr args.phone_number s.data.demographics.phone
  let s1 := { s with data := { s.data with
    smsConsent := ⟨consentGiven, some env.nowMs, phoneNumber⟩ } }
  (s1, .consentAck consentGiven, [])

def recordAssessment (env : Env) (s : SessionState) (args : FnArgs) :
    SessionState × FnResult × List Effect :=
  let s1 :=
    if jsTruthyStr args.notes then { s with data := { s.data with notes := args.notes.getD "" } }
    else s
  let scoring := calculateScore env.cfg s1.data
  ({ s1 with scoring := some scoring },
   .assessmentAck scoring.totalScore scoring.recommendation, [])

def flagUrgent (s : SessionState) (args : FnArgs) :
    SessionState × FnResult × List Effect :=
  let crisis := jsTruthyB args.crisis_mentioned
  ({ s with flags := { s.flags with
      urgent := true
      urgentReason := args.reason
      crisisMentioned := crisis } },
   .urgentAck crisis, [])

def requestHumanTransfer (s : SessionState) : SessionState × FnResult × List Effect :=
  ({ s with flags := { s.flags with transferRequested := true } }, .transferAck, [])

def endCall (env : Env) (s : SessionState) (args : FnArgs) :
    SessionState × FnResult × List Effect :=
  let sendSms := jsTruthyB args.send_sms
  let canSendSms := sendSms ∧ s.data.smsConsent.consentGiven
    ∧ jsTruthyStr s.data.demographics.phone ∧ env.smsEnabled
  let effects : List Effect :=
    if canSendSms then
      Effect.smsConfirmation (s.data.demographics.phone.getD "")
        :: (if env.smsOk then [.logInfo "sms_sent" ""] else [.logInfo "sms_failed" ""])
    else if sendSms ∧ ¬ s.data.smsConsent.consentGiven then
      [.logInfo "sms_skipped" "no_consent"]
    else []
  ({ s with outcome := args.outcome }, .endCallAck (decide canSendSms), effects)

def recordCallbackRequest (env : Env) (s : SessionState) (_args : FnArgs) :
    SessionState × FnResult × List Effect :=
  let s1 := { s with outcome := some "callback_request" }
  if env.dbCallbackOk then
    (s1, .callbackAck true, [.dbSaveCallback, .emailMessageNotify])
  else
    (s1, .callbackAck false, [.dbSaveCallback])

/-- `IntakeSession.handleFunctionCall`: dispatch by operation name;
unknown names yield a structured error result. -/
def handleFunctionCall (env : Env) (s : SessionState) (name : String) (args : FnArgs) :
    SessionState × FnResult × List Effect :=
  if name = "record_demographics" then recordDemographics env s args
  else if name = "record_education" then recordEducation s args
  else if name = "record_medical_conditions" then recordMedicalConditions s args
  else if name = "record_medications" then recordMedications s args
  else if name = "record_functional_limitations" then recordFunctionalLimitations s args
  else if name = "record_work_history" then recordWorkHistory s args
  else if name = "record_application_status" then recordApplicationStatus env s args
  else if name = "record_sms_consent" then recordSmsConsent env s args
  else if name = "record_assessment" then recordAssessment env s args
  else if name = "flag_urgent" then flagUrgent s args
  else if name = "request_human_transfer" then requestHumanTransfer s
  else if name = "end_call" then endCall env s args
  else if name = "record_callback_request" then recordCallbackRequest env s args
  else (s, .errResult ("Unknown function: " ++ name), [])

/-- The names `handleFunctionCall` dispatches on. -/
def knownOperations : List String :=
  ["record_demographics", "record_education", "record_medical_conditions",
   "record_medications", "record_functional_limitations", "record_work_history",
   "record_application_status", "record_sms_consent", "record_assessment",
   "flag_urgent", "request_human_transfer", "end_call", "record_callback_request"]

structure IntakeResult where
  data : IntakeData
  scoring : ScoringResult
  flags : CallFlags
  outcome : Option String
deriving DecidableEq

/-- `IntakeSession.finalize`.  `remote` is the outcome of the (external)
`skinnyAppClient.submitAssessment` call already mapped through
`mapToScoringResult`; `.error` covers any rejection.  The returned state
records the cached `this.scoring`; the effect list is ordered as performed.
The `.error` result models the re-thrown delegation failure when fallback
is disabled. -/
def finalize (env : Env) (remote : Except Unit ScoringResult) (s : SessionState) :
    Except Unit (SessionState × IntakeResult × List Effect) :=
  let attempt :=
    if env.skinnyEnabled ∧ s.outcome ≠ some "callback_request" then
      match remote with
      | .ok r => Except.ok (some r, [Effect.skinnySubmit])
      | .error _ =>
          if env.skinnyFallback then
            Except.ok (some (calculateScore env.cfg s.data), [Effect.skinnySubmit])
          else Except.error ()
    else
      Except.ok (if s.scoring.isSome then s.scoring else some (calculateScore env.cfg s.data),
                 ([] : List Effect))
  match attempt with
  | .error e => .error e
  | .ok (scoring?, preEffects) =>
    let scoring := scoring?.getD (calculateScore env.cfg s.data)
    let result : IntakeResult :=
      { data := s.data, scoring := scoring, flags := s.flags, outcome := s.outcome }
    let postEffects : List Effect :=
      [.dbSaveIntake]
      ++ (if s.outcome ≠ some "callback_request" then
            [Effect.emailIntakeNotify]
            ++ (if jsTruthyStr s.data.demographics.email then [Effect.emailClientConfirm] else [])
          else [])
    .ok ({ s with scoring := some scoring }, result, preEffects ++ postEffects)

/-! ## Silence-timeout handling (`openaiRealtime.ts`)

The client state relevant to silence re-prompting: `silencePromptCount`,
whether a `setTimeout` silence timer is currently armed, and the
`callEnding` flag.  Events are the handled realtime messages that touch
this state plus the firing of an armed timer and `markCallEnding()`.
Each step returns the number of re-prompts synthesized (0 or 1). -/

def FIRST_SILENCE_TIMEOUT_MS : ℕ := 20000
def SILENCE_TIMEOUT_MS : ℕ := 15000
def MAX_SILENCE_PROMPTS : ℕ := 2

structure SilenceState where
  silencePromptCount : ℕ
  timerArmed : Bool
  callEnding : Bool
deriving DecidableEq

def initSilence : SilenceState := ⟨0, false, false⟩

inductive RtEvent where
  | responseDone                       -- `response.done` → startSilenceTimeout()
  | timerFire                          -- an armed silence timer expires
  | speechStarted                      -- `input_audio_buffer.speech_started`
  | transcriptCompleted (t : String)   -- `conversation.item.input_audio_transcription.completed`
  | markEnding                         -- markCallEnding()
deriving DecidableEq

/-- `startSilenceTimeout()`: clear any armed timer, then refuse to re-arm if
the call is ending or the prompt cap is reached. -/
def startSilenceTimeout (s : SilenceState) : SilenceState :=
  let s := { s with timerArmed := false }
  if s.callEnding then s
  else if s.silencePromptCount ≥ MAX_SILENCE_PROMPTS then s
  else { s with timerArmed := true }

/-- `handleSilenceTimeout()` (the timer has fired, so it is no longer
armed): double-check `callEnding`, then increment the counter and emit one
re-prompt. -/
def handleSilenceTimeout (s : SilenceState) : SilenceState × ℕ :=
  let s := { s with timerArmed := false }
  if s.callEnding then (s, 0)
  else ({ s with silencePromptCount := s.silencePromptCount + 1 }, 1)

/-- One event of the silence machinery (`handleMessage` cases,
timer expiry, `markCallEnding`). -/
def silenceStep (s : SilenceState) : RtEvent → SilenceState × ℕ
  | .responseDone => (startSilenceTimeout s, 0)
  | .timerFire => if s.timerArmed then handleSilenceTimeout s else (s, 0)
  | .speechStarted => ({ s with timerArmed := false }, 0)
  | .transcriptCompleted t =>
      (if t != "" then { s with silencePromptCount := 0 } else s, 0)
  | .markEnding => ({ s with callEnding := true, timerArmed := false }, 0)

/-- Run a sequence of events, accumulating the number of re-prompts. -/
def silenceRun (s : SilenceState) : List RtEvent → SilenceState × ℕ
  | [] => (s, 0)
  | e :: evs =>
      let r1 := silenceStep s e
      let r2 := silenceRun r1.1 evs
      (r2.1, r1.2 + r2.2)

/-- Events generated by caller speech. -/
def isCallerSpeechEv : RtEvent → Bool
  | .speechStarted => true
  | .transcriptCompleted _ => true
  | _ => false

/-! ## Sample environment and sessions used by witnesses -/

def sampleEnv : Env :=
  { cfg := defaultScoringConfig
    smsEnabled := true
    skinnyEnabled := false
    skinnyFallback := true
    nowMs := 1760140800000
    todayY := 2026
    todayM := 9
    todayD := 11
    parseDateMs := fun _ => 1755000000000
    parseDateY := fun _ => 1970
    parseDateM := fun _ => 0
    parseDateD := fun _ => 1
    smsOk := true
    dbCallbackOk := true }

def baseSession : SessionState := initSession ⟨"+15550100", "Austin", "TX"⟩

/-!
## C2 — boundedness and shape of the total score
-/

/-- C2: for every IntakeData record, `calculateScore` returns a totalScore
that is the accumulated raw score rounded to the nearest integer and clamped
to [0,100]; in particular it is an integer in that range. -/
theorem C2_score_bounded (cfg : ScoringConfig) (data : IntakeData) :
    (calculateScore cfg data).totalScore = max 0 (min 100 (jsRound (finalScoreQ data)))
    ∧ 0 ≤ (calculateScore cfg data).totalScore
    ∧ (calculateScore cfg data).totalScore ≤ 100 := by
  refine ⟨rfl, ?_, ?_⟩
  · exact le_max_left 0 _
  · exact max_le (by norm_num) (min_le_left _ _)

/-!
## C5 — unknown operation names
-/

/-- C5: dispatching any operation name outside the fixed set returns a
structured "unknown operation" error result and leaves the session state
(record, flags, outcome, cached scoring) byte-for-byte unchanged. -/
theorem C5_unknown_operation (env : Env) (s : SessionState) (name : String) (args : FnArgs)
    (h : name ∉ knownOperations) :
    handleFunctionCall env s name args =
      (s, FnResult.errResult ("Unknown function: " ++ name), []) := by
  simp only [knownOperations, List.mem_cons, List.not_mem_nil, or_false, not_or] at h
  obtain ⟨h1, h2, h3, h4, h5, h6, h7, h8, h9, h10, h11, h12, h13⟩ := h
  simp [handleFunctionCall, h1, h2, h3, h4, h5, h6, h7, h8, h9, h10, h11, h12, h13]

theorem C5_unknown_operation_witness :
    "frobnicate" ∉ knownOperations ∧
    handleFunctionCall sampleEnv baseSession "frobnicate" {} =
      (baseSession, FnResult.errResult ("Unknown function: " ++ "frobnicate"), []) :=
  ⟨by decide, C5_unknown_operation sampleEnv baseSession "frobnicate" {} (by decide)⟩

/-!
## C10 — record_demographics overwrite/retain behaviour
-/


/-- C10: `record_demographics` overwrites firstName, lastName, dateOfBirth
and email with exactly the supplied argument values (an absent argument
erases the previous value), while phone, city and state retain their
previous (e.g. caller-ID prepopulated) values when the corresponding
argument is absent. -/
theorem C10_record_demographics_frame (env : Env) (s : SessionState) (args : FnArgs) :
    (handleFunctionCall env s "record_demographics" args).1.data.demographics.firstName
      = args.first_name
    ∧ (handleFunctionCall env s "record_demographics" args).1.data.demographics.lastName
      = args.last_name
    ∧ (handleFunctionCall env s "record_demographics" args).1.data.demographics.dateOfBirth
      = args.date_of_birth
    ∧ (handleFunctionCall env s "record_demographics" args).1.data.demographics.email
      = args.email
    ∧ (args.phone = none →
        (handleFunctionCall env s "record_demographics" args).1.data.demographics.phone
          = s.data.demographics.phone)
    ∧ (args.city = none →
        (handleFunctionCall env s "record_demographics" args).1.data.demographics.city
          = s.data.demographics.city)
    ∧ (args.state = none →
        (handleFunctionCall env s "record_demographics" args).1.data.demographics.state
          = s.data.demographics.state) := by
  have hd : handleFunctionCall env s "record_demographics" args
      = recordDemographics env s args := rfl
  rw [hd]
  unfold recordDemographics
  dsimp only
  refine ⟨?_, ?_, ?_, ?_, fun hp => ?_, fun hc => ?_, fun hs => ?_⟩
  · split <;> rfl
  · split <;> rfl
  · split <;> rfl
  · split <;> rfl
  · split <;> simp [hp, jsOrStr, jsTruthyStr]
  · split <;> simp [hc, jsOrStr, jsTruthyStr]
  · split <;> simp [hs, jsOrStr, jsTruthyStr]

theorem C10_record_demographics_witness :
    (({ first_name := some "Ada" } : FnArgs).phone = none)
    ∧ (handleFunctionCall sampleEnv baseSession "record_demographics"
        { first_name := some "Ada" }).1.data.demographics.firstName = some "Ada"
    ∧ (handleFunctionCall sampleEnv baseSession "record_demographics"
        { first_name := some "Ada" }).1.data.demographics.phone
        = baseSession.data.demographics.phone :=
  ⟨rfl,
   (C10_record_demographics_frame sampleEnv baseSession { first_name := some "Ada" }).1,
   (C10_record_demographics_frame sampleEnv baseSession
     { first_name := some "Ada" }).2.2.2.2.1 rfl⟩

/-!
## C4 — SMS consent gating at end of call
-/

def sessionWithConsent : SessionState :=
  { baseSession with data := { baseSession.data with
      smsConsent := ⟨true, some 1760140800000, some "+15550100"⟩ } }

/-- C4 counterexample: with consent given, a phone number known and the SMS
feature flag enabled, `end_call` performs no SMS send (and logs nothing)
when the call did not request one (`send_sms` falsy) — so an SMS send does
NOT occur if and only if the three conditions hold, and not every
single-violation combination gets its own logged reason. -/
theorem C4_counterexample :
    sessionWithConsent.data.smsConsent.consentGiven = true
    ∧ jsTruthyStr sessionWithConsent.data.demographics.phone = true
    ∧ sampleEnv.smsEnabled = true
    ∧ (endCall sampleEnv sessionWithConsent
        { send_sms := some false, outcome := some "completed" }).2.2 = [] := by
  decide

/-- C4 (amended): an SMS send is attempted iff the end-call arguments
request it AND consent was given AND a destination phone is known AND the
feature flag is enabled; and the only distinctly-logged no-op is the
missing-consent case (`sms_skipped`/`no_consent`) — a missing phone number
or disabled feature flag short-circuits silently. -/
theorem C4_sms_gating (env : Env) (s : SessionState) (args : FnArgs) :
    ((∃ p, Effect.smsConfirmation p ∈ (endCall env s args).2.2) ↔
      (jsTruthyB args.send_sms = true ∧ s.data.smsConsent.consentGiven = true
        ∧ jsTruthyStr s.data.demographics.phone = true ∧ env.smsEnabled = true))
    ∧ ((Effect.logInfo "sms_skipped" "no_consent" ∈ (endCall env s args).2.2) ↔
      (jsTruthyB args.send_sms = true ∧ s.data.smsConsent.consentGiven = false)) := by
  cases h1 : jsTruthyB args.send_sms <;>
    cases h2 : s.data.smsConsent.consentGiven <;>
    cases h3 : jsTruthyStr s.data.demographics.phone <;>
    cases h4 : env.smsEnabled <;>
    cases h5 : env.smsOk <;>
    simp [endCall, h1, h2, h3, h4, h5]

theorem C4_sms_gating_witness :
    Effect.logInfo "sms_skipped" "no_consent" ∈
      (endCall sampleEnv baseSession { send_sms := some true, outcome := some "completed" }).2.2 :=
  (C4_sms_gating sampleEnv baseSession
    { send_sms := some true, outcome := some "completed" }).2.mpr ⟨rfl, rfl⟩

/-!
## C7 — speech-start handling while the silence timer is armed
-/

/-- C7 counterexample: after one re-prompt the timer is re-armed; processing
the caller speech-start event disarms the timer but does NOT reset the
re-prompt counter to zero (the counter is only reset by the completed
caller-transcription event). -/
theorem C7_counterexample :
    (silenceRun initSilence [RtEvent.responseDone, RtEvent.timerFire, RtEvent.responseDone]).1
      = (⟨1, true, false⟩ : SilenceState)
    ∧ (silenceStep (⟨1, true, false⟩ : SilenceState) RtEvent.speechStarted).1.timerArmed = false
    ∧ ¬ (silenceStep (⟨1, true, false⟩ : SilenceState)
          RtEvent.speechStarted).1.silencePromptCount = 0 := by
  decide

/-- C7 (amended): the speech-start event disarms the silence timer and
leaves everything else (in particular the re-prompt counter) unchanged; the
counter is reset to zero only when the caller's completed-transcription
event arrives with a nonempty transcript. -/
theorem C7_speech_events (s : SilenceState) :
    (silenceStep s RtEvent.speechStarted).1 = { s with timerArmed := false }
    ∧ (∀ t : String, t ≠ "" →
        (silenceStep s (RtEvent.transcriptCompleted t)).1
          = { s with silencePromptCount := 0 }) := by
  refine ⟨rfl, fun t ht => ?_⟩
  simp [silenceStep, bne_iff_ne, ht]

theorem C7_speech_events_witness :
    (silenceStep (⟨1, true, false⟩ : SilenceState) RtEvent.speechStarted).1
      = (⟨1, false, false⟩ : SilenceState)
    ∧ (silenceStep (⟨1, true, false⟩ : SilenceState) (RtEvent.transcriptCompleted "yes")).1
      = (⟨0, true, false⟩ : SilenceState) :=
  ⟨(C7_speech_events ⟨1, true, false⟩).1,
   (C7_speech_events ⟨1, true, false⟩).2 "yes" (by decide)⟩

/-!
## C6 — silence re-prompt cap and call-ending cut-off
-/

def noCallerSpeech (evs : List RtEvent) : Bool := evs.all (fun e => !isCallerSpeechEv e)

/-- The invariant linking the armed timer to the prompt counter. -/
def silenceInv (s : SilenceState) : Prop :=
  s.silencePromptCount ≤ MAX_SILENCE_PROMPTS
    ∧ (s.timerArmed = true → s.silencePromptCount < MAX_SILENCE_PROMPTS)

lemma silenceStep_inv (s : SilenceState) (e : RtEvent) (h : silenceInv s) :
    silenceInv (silenceStep s e).1 := by
  obtain ⟨h1, h2⟩ := h
  unfold silenceInv
  cases e <;>
    simp only [silenceStep, startSilenceTimeout, handleSilenceTimeout] <;>
    (try split_ifs) <;> simp_all [MAX_SILENCE_PROMPTS] <;> try omega

lemma silenceRun_inv (evs : List RtEvent) (s : SilenceState) (h : silenceInv s) :
    silenceInv (silenceRun s evs).1 := by
  induction evs generalizing s with
  | nil => exact h
  | cons e evs ih => exact ih _ (silenceStep_inv s e h)

lemma silenceRun_count (evs : List RtEvent) (s : SilenceState) (h : noCallerSpeech evs = true) :
    (silenceRun s evs).1.silencePromptCount = s.silencePromptCount + (silenceRun s evs).2 := by
  induction evs generalizing s with
  | nil => simp [silenceRun]
  | cons e evs ih =>
      simp only [noCallerSpeech, List.all_cons, Bool.and_eq_true] at h
      obtain ⟨he, hrest⟩ := h
      have ih' := ih (silenceStep s e).1 (by simpa [noCallerSpeech] using hrest)
      have hstep : (silenceStep s e).1.silencePromptCount
          = s.silencePromptCount + (silenceStep s e).2 := by
        cases e <;>
          simp_all [silenceStep, startSilenceTimeout, handleSilenceTimeout, isCallerSpeechEv] <;>
          split_ifs <;> simp_all
      simp only [silenceRun]
      rw [ih', hstep]
      omega

lemma silenceStep_ending (s : SilenceState) (e : RtEvent) (h : s.callEnding = true) :
    (silenceStep s e).1.callEnding = true ∧ (silenceStep s e).2 = 0 := by
  cases e <;>
    simp_all [silenceStep, startSilenceTimeout, handleSilenceTimeout] <;>
    split_ifs <;> simp_all

lemma silenceRun_ending (evs : List RtEvent) (s : SilenceState) (h : s.callEnding = true) :
    (silenceRun s evs).2 = 0 := by
  induction evs generalizing s with
  | nil => rfl
  | cons e evs ih =>
      have h1 := silenceStep_ending s e h
      simp only [silenceRun]
      rw [ih _ h1.1, h1.2]

/-- C6: over any sequence of realtime events with no caller speech, the
number of synthesized re-prompts never exceeds `MAX_SILENCE_PROMPTS`; and
from any state where the call is marked ending, no event sequence —
including the firing of an already-armed timer — emits a re-prompt. -/
theorem C6_silence_cap :
    (∀ evs : List RtEvent, noCallerSpeech evs = true →
        (silenceRun initSilence evs).2 ≤ MAX_SILENCE_PROMPTS)
    ∧ (∀ (s : SilenceState) (evs : List RtEvent), s.callEnding = true →
        (silenceRun s evs).2 = 0) := by
  constructor
  · intro evs h
    have hinv := silenceRun_inv evs initSilence
      (by simp [silenceInv, initSilence, MAX_SILENCE_PROMPTS])
    have hcount := silenceRun_count evs initSilence h
    have h1 := hinv.1
    have h0 : initSilence.silencePromptCount = 0 := rfl
    rw [h0] at hcount
    omega
  · intro s evs h
    exact silenceRun_ending evs s h

theorem C6_silence_cap_witness :
    noCallerSpeech [RtEvent.responseDone, RtEvent.timerFire, RtEvent.responseDone,
      RtEvent.timerFire, RtEvent.responseDone, RtEvent.timerFire] = true
    ∧ (silenceRun initSilence [RtEvent.responseDone, RtEvent.timerFire, RtEvent.responseDone,
        RtEvent.timerFire, RtEvent.responseDone, RtEvent.timerFire]).2 ≤ MAX_SILENCE_PROMPTS
    ∧ (⟨0, true, true⟩ : SilenceState).callEnding = true
    ∧ (silenceRun (⟨0, true, true⟩ : SilenceState)
        [RtEvent.timerFire, RtEvent.responseDone, RtEvent.timerFire]).2 = 0 :=
  ⟨by decide, C6_silence_cap.1 _ (by decide), rfl, C6_silence_cap.2 _ _ rfl⟩

/-!
## C3 — monotonicity of the call flags
-/

/-- Run a sequence of structured operations through `handleFunctionCall`. -/
def runCalls (env : Env) (s : SessionState) : List (String × FnArgs) → SessionState
  | [] => s
  | (n, a) :: rest => runCalls env (handleFunctionCall env s n a).1 rest

def C3sess1 : SessionState :=
  (handleFunctionCall sampleEnv baseSession "flag_urgent"
    { reason := some "caller distressed", crisis_mentioned := some true }).1

def C3sess2 : SessionState :=
  (handleFunctionCall sampleEnv C3sess1 "flag_urgent" {}).1

/-- C3 counterexample: a second `flag_urgent` call without a reason and
without `crisis_mentioned` resets the crisis-mentioned flag back to false
and clears the urgent-reason — so those two are not monotone within a
call. -/
theorem C3_counterexample :
    C3sess1.flags.crisisMentioned = true
    ∧ C3sess1.flags.urgentReason = some "caller distressed"
    ∧ C3sess2.flags.crisisMentioned = false
    ∧ C3sess2.flags.urgentReason = none := by
  decide

lemma recordDemographics_flags (env : Env) (s : SessionState) (a : FnArgs) :
    (recordDemographics env s a).1.flags = s.flags := rfl

lemma recordAssessment_flags (env : Env) (s : SessionState) (a : FnArgs) :
    (recordAssessment env s a).1.flags = s.flags := by
  unfold recordAssessment; split <;> rfl

lemma recordApplicationStatus_flags (env : Env) (s : SessionState) (a : FnArgs) :
    ((recordApplicationStatus env s a).1.flags.urgent = s.flags.urgent
      ∨ (recordApplicationStatus env s a).1.flags.urgent = true)
    ∧ (recordApplicationStatus env s a).1.flags.transferRequested
        = s.flags.transferRequested := by
  simp only [recordApplicationStatus]
  split_ifs <;> simp

lemma recordCallbackRequest_flags (env : Env) (s : SessionState) (a : FnArgs) :
    (recordCallbackRequest env s a).1.flags = s.flags := by
  unfold recordCallbackRequest; split <;> rfl

lemma handleFunctionCall_flags_mono (env : Env) (s : SessionState) (n : String) (a : FnArgs) :
    (s.flags.urgent = true → (handleFunctionCall env s n a).1.flags.urgent = true)
    ∧ (s.flags.transferRequested = true →
        (handleFunctionCall env s n a).1.flags.transferRequested = true) := by
  by_cases h1 : n = "record_demographics"
  · subst h1; exact ⟨id, id⟩
  by_cases h2 : n = "record_education"
  · subst h2; exact ⟨id, id⟩
  by_cases h3 : n = "record_medical_conditions"
  · subst h3; exact ⟨id, id⟩
  by_cases h4 : n = "record_medications"
  · subst h4; exact ⟨id, id⟩
  by_cases h5 : n = "record_functional_limitations"
  · subst h5; exact ⟨id, id⟩
  by_cases h6 : n = "record_work_history"
  · subst h6; exact ⟨id, id⟩
  by_cases h7 : n = "record_application_status"
  · subst h7
    have e : handleFunctionCall env s "record_application_status" a
        = recordApplicationStatus env s a := rfl
    rw [e]
    obtain ⟨hu, ht⟩ := recordApplicationStatus_flags env s a
    refine ⟨fun h => ?_, fun h => ht.trans h⟩
    rcases hu with h0 | h0
    · exact h0.trans h
    · exact h0
  by_cases h8 : n = "record_sms_consent"
  · subst h8; exact ⟨id, id⟩
  by_cases h9 : n = "record_assessment"
  · subst h9
    have e : handleFunctionCall env s "record_assessment" a = recordAssessment env s a := rfl
    rw [e, recordAssessment_flags]
    exact ⟨id, id⟩
  by_cases h10 : n = "flag_urgent"
  · subst h10; exact ⟨fun _ => rfl, id⟩
  by_cases h11 : n = "request_human_transfer"
  · subst h11; exact ⟨id, fun _ => rfl⟩
  by_cases h12 : n = "end_call"
  · subst h12; exact ⟨id, id⟩
  by_cases h13 : n = "record_callback_request"
  · subst h13
    have e : handleFunctionCall env s "record_callback_request" a
        = recordCallbackRequest env s a := rfl
    rw [e, recordCallbackRequest_flags]
    exact ⟨id, id⟩
  · simp [handleFunctionCall, h1, h2, h3, h4, h5, h6, h7, h8, h9, h10, h11, h12, h13]

/-- C3 (amended): over any sequence of `handleFunctionCall` operations,
the `urgent` and `transferRequested` flags, once true, are never set back
to false; the `crisisMentioned` flag and the urgent reason, by contrast,
are overwritten by each `flag_urgent` invocation (see the
counterexample). -/
theorem C3_flags_monotone (env : Env) (s : SessionState) (calls : List (String × FnArgs)) :
    (s.flags.urgent = true → (runCalls env s calls).flags.urgent = true)
    ∧ (s.flags.transferRequested = true →
        (runCalls env s calls).flags.transferRequested = true) := by
  induction calls generalizing s with
  | nil => exact ⟨id, id⟩
  | cons c rest ih =>
      obtain ⟨n, a⟩ := c
      have hstep := handleFunctionCall_flags_mono env s n a
      have hrest := ih (handleFunctionCall env s n a).1
      exact ⟨fun h => hrest.1 (hstep.1 h), fun h => hrest.2 (hstep.2 h)⟩

theorem C3_flags_monotone_witness :
    C3sess1.flags.urgent = true
    ∧ (runCalls sampleEnv C3sess1
        [("flag_urgent", {}), ("record_education", {}), ("end_call", {})]).flags.urgent = true :=
  ⟨rfl, (C3_flags_monotone sampleEnv C3sess1
    [("flag_urgent", {}), ("record_education", {}), ("end_call", {})]).1 rfl⟩

/-!
## C1 — finalize() is not guarded against a second invocation
-/

def calcC1 : ScoringResult := calculateScore defaultScoringConfig baseSession.data

/-- A session that has already computed its assessment and ended. -/
def C1sess : SessionState :=
  { baseSession with scoring := some calcC1, outcome := some "completed" }

/-- The session state after a first successful `finalize()`. -/
def C1after1 : SessionState :=
  match finalize sampleEnv (Except.error ()) C1sess with
  | .ok (s, _, _) => s
  | .error _ => C1sess

/-- The side effects performed by a second `finalize()` on the
already-finalized session. -/
def C1effects2 : List Effect :=
  match finalize sampleEnv (Except.error ()) C1after1 with
  | .ok (_, _, effs) => effs
  | .error _ => []

/-- C1 counterexample: a second `finalize()` on an already-finalized session
is neither rejected nor side-effect free — it repeats the persistence write
and re-sends the intake notification email. -/
theorem C1_counterexample :
    Effect.emailIntakeNotify ∈ C1effects2 ∧ Effect.dbSaveIntake ∈ C1effects2 := by
  decide

/-- C1 (amended): `finalize()` has no finalize-once guard.  With remote
scoring disabled, any invocation on a session whose scoring is already
cached reuses that cached ScoringResult — it does not recompute or
overwrite it — but it unconditionally re-runs the persistence write and
(for non-callback calls) the email notifications. -/
theorem C1_finalize_rerun (env : Env) (s : SessionState) (remote : Except Unit ScoringResult)
    (r : ScoringResult) (h1 : env.skinnyEnabled = false) (h2 : s.scoring = some r) :
    finalize env remote s = Except.ok ({ s with scoring := some r },
      ⟨s.data, r, s.flags, s.outcome⟩,
      Effect.dbSaveIntake ::
        (if s.outcome ≠ some "callback_request" then
          Effect.emailIntakeNotify ::
            (if jsTruthyStr s.data.demographics.email then [Effect.emailClientConfirm] else [])
        else [])) := by
  simp [finalize, h1, h2]

theorem C1_finalize_rerun_witness :
    finalize sampleEnv (Except.error ()) C1sess = Except.ok ({ C1sess with scoring := some calcC1 },
      ⟨C1sess.data, calcC1, C1sess.flags, C1sess.outcome⟩,
      Effect.dbSaveIntake ::
        (if C1sess.outcome ≠ some "callback_request" then
          Effect.emailIntakeNotify ::
            (if jsTruthyStr C1sess.data.demographics.email then [Effect.emailClientConfirm] else [])
        else [])) :=
  C1_finalize_rerun sampleEnv C1sess (Except.error ()) calcC1 rfl rfl

/-!
## C8 — condition matching: case-insensitive, first match wins, default score
-/

/-- Does condition string `c` match table entry `e` (the source's
`condition.toLowerCase().includes(key)`)? -/
def condMatches (c : String) (e : CondEntry) : Bool := containsSub (lowerStr c) e.key

lemma findCond_append_first (l₁ l₂ : List CondEntry) (e : CondEntry) (cl : String)
    (hnone : ∀ e₁ ∈ l₁, containsSub cl e₁.key = false)
    (he : containsSub cl e.key = true) :
    findCond (l₁ ++ e :: l₂) cl = some e := by
  induction l₁ with
  | nil => simp [findCond, he]
  | cons x xs ih =>
      have hx := hnone x (List.mem_cons_self x xs)
      simp only [List.cons_append, findCond, hx, Bool.false_eq_true, if_false]
      exact ih fun e₁ h => hnone e₁ (List.mem_cons_of_mem x h)

lemma findCond_none (l : List CondEntry) (cl : String)
    (hnone : ∀ e ∈ l, containsSub cl e.key = false) :
    findCond l cl = none := by
  induction l with
  | nil => rfl
  | cons x xs ih =>
      have hx := hnone x (List.mem_cons_self x xs)
      simp only [findCond, hx, Bool.false_eq_true, if_false]
      exact ih fun e h => hnone e (List.mem_cons_of_mem x h)

/-- C8: per-condition scoring (a) depends only on the lower-cased condition
string (case-insensitive substring matching), (b) when the condition
matches a table entry that is preceded only by non-matching entries, it
contributes exactly that single entry's score (first match wins, no
double-counting even if later keys also match), and (c) a condition
matching no entry contributes the non-zero default `10 × severity
multiplier`. -/
theorem C8_condition_matching (sev : Option Severity) (age : ℚ) (c : String) :
    (∀ c₂ : String, lowerStr c = lowerStr c₂ →
        condStep CONDITION_SCORES sev age c = condStep CONDITION_SCORES sev age c₂)
    ∧ (∀ (e : CondEntry) (l₁ l₂ : List CondEntry), CONDITION_SCORES = l₁ ++ e :: l₂ →
        (l₁.all fun e₁ => !condMatches c e₁) = true → condMatches c e = true →
        condStep CONDITION_SCORES sev age c =
          ⟨condEntryScore e sev age, e.category == "mental", e.category != "mental"⟩)
    ∧ ((CONDITION_SCORES.all fun e => !condMatches c e) = true →
        condStep CONDITION_SCORES sev age c = ⟨10 * severityMultiplier sev, false, false⟩
          ∧ 0 < 10 * severityMultiplier sev) := by
  refine ⟨fun c₂ h => ?_, fun e l₁ l₂ hdec hnone hmatch => ?_, fun hnone => ⟨?_, ?_⟩⟩
  · simp only [condStep, h]
  · unfold condStep
    rw [hdec, findCond_append_first l₁ l₂ e (lowerStr c)
      (by simpa [condMatches, List.all_eq_true] using hnone) hmatch]
  · unfold condStep
    rw [findCond_none CONDITION_SCORES (lowerStr c)
      (by simpa [condMatches, List.all_eq_true] using hnone)]
  · rcases sev with _ | sv
    · norm_num [severityMultiplier]
    · cases sv <;> norm_num [severityMultiplier]

def backPainEntry : CondEntry := ⟨"back pain", 20, 0.63, "musculoskeletal", some "1.15"⟩

theorem C8_condition_matching_witness :
    (lowerStr "Chronic Back Pain" = lowerStr "cHrOnIc bAcK pAiN"
      ∧ condStep CONDITION_SCORES none 0 "Chronic Back Pain"
          = condStep CONDITION_SCORES none 0 "cHrOnIc bAcK pAiN")
    ∧ (CONDITION_SCORES
          = CONDITION_SCORES.take 13 ++ backPainEntry :: CONDITION_SCORES.drop 14
        ∧ ((CONDITION_SCORES.take 13).all fun e₁ => !condMatches "Chronic Back Pain" e₁) = true
        ∧ condMatches "Chronic Back Pain" backPainEntry = true
        ∧ condStep CONDITION_SCORES none 0 "Chronic Back Pain"
            = ⟨condEntryScore backPainEntry none 0,
               backPainEntry.category == "mental", backPainEntry.category != "mental"⟩)
    ∧ ((CONDITION_SCORES.all fun e => !condMatches "unrecognized ailment" e) = true
        ∧ condStep CONDITION_SCORES none 0 "unrecognized ailment"
            = ⟨10 * severityMultiplier none, false, false⟩
        ∧ 0 < 10 * severityMultiplier none) :=
  ⟨⟨by decide, (C8_condition_matching none 0 "Chronic Back Pain").1 _ (by decide)⟩,
   ⟨by rfl, by decide, by decide,
    (C8_condition_matching none 0 "Chronic Back Pain").2.1 backPainEntry
      (CONDITION_SCORES.take 13) (CONDITION_SCORES.drop 14) (by rfl) (by decide) (by decide)⟩,
   ⟨by decide,
    ((C8_condition_matching none 0 "unrecognized ailment").2.2 (by decide)).1,
    ((C8_condition_matching none 0 "unrecognized ailment").2.2 (by decide)).2⟩⟩

/-!
## C9 — raising age from 48 to 56 never decreases the score
-/

/-- Replace only `demographics.age`, holding every other field fixed. -/
def setAge (d : IntakeData) (a : Option ℚ) : IntakeData :=
  { d with demographics := { d.demographics with age := a } }

lemma ageOf_setAge (d : IntakeData) (v : ℚ) (h : v ≠ 0) :
    ageOf (setAge d (some v)) = v := by
  simp [ageOf, setAge, jsOrQ, jsTruthyQ, bne_iff_ne, h]

lemma educationFactor_age_mono (level : Option EducationLevel) :
    (educationFactor level 48).1 ≤ (educationFactor level 56).1 := by
  rcases level with _ | l
  · norm_num [educationFactor]
  · cases l <;> norm_num [educationFactor]

lemma condEntryScore_age_mono (e : CondEntry) (sev : Option Severity) :
    condEntryScore e sev 48 ≤ condEntryScore e sev 56 := by
  unfold condEntryScore
  norm_num

lemma condStep_age_mono (table : List CondEntry) (sev : Option Severity) (c : String) :
    (condStep table sev 48 c).score ≤ (condStep table sev 56 c).score
    ∧ (condStep table sev 48 c).hasMental = (condStep table sev 56 c).hasMental
    ∧ (condStep table sev 48 c).hasPhysical = (condStep table sev 56 c).hasPhysical := by
  unfold condStep
  rcases hfc : findCond table (lowerStr c) with _ | e <;>
    simp [hfc, condEntryScore_age_mono]

lemma condLoop_age_mono (table : List CondEntry) (sev : Option Severity) (cs : List String) :
    (condLoop table sev 48 cs).score ≤ (condLoop table sev 56 cs).score
    ∧ (condLoop table sev 48 cs).hasMental = (condLoop table sev 56 cs).hasMental
    ∧ (condLoop table sev 48 cs).hasPhysical = (condLoop table sev 56 cs).hasPhysical := by
  induction cs with
  | nil => exact ⟨le_refl _, rfl, rfl⟩
  | cons c rest ih =>
      have h1 := condStep_age_mono table sev c
      simp only [condLoop]
      exact ⟨add_le_add h1.1 ih.1,
        by rw [h1.2.1, ih.2.1],
        by rw [h1.2.2, ih.2.2]⟩

lemma gridFactor_48 (level : Option EducationLevel) (fl : FunctionalLimitations) :
    (gridFactor 48 level fl).1 = 0 := by
  unfold gridFactor
  norm_num

lemma gridFactor_nonneg (age : ℚ) (level : Option EducationLevel) (fl : FunctionalLimitations) :
    0 ≤ (gridFactor age level fl).1 := by
  simp only [gridFactor]
  split
  · norm_num
  split
  · norm_num
  split
  · norm_num
  · norm_num

lemma setAge_education (d : IntakeData) (a : Option ℚ) :
    (setAge d a).education = d.education := rfl

lemma setAge_medical (d : IntakeData) (a : Option ℚ) :
    (setAge d a).medical = d.medical := rfl

lemma setAge_functionalLimitations (d : IntakeData) (a : Option ℚ) :
    (setAge d a).functionalLimitations = d.functionalLimitations := rfl

lemma setAge_workHistory (d : IntakeData) (a : Option ℚ) :
    (setAge d a).workHistory = d.workHistory := rfl

lemma rawTotal_age_mono (d : IntakeData) :
    rawTotal (setAge d (some 48)) ≤ rawTotal (setAge d (some 56)) := by
  have h48 := ageOf_setAge d 48 (by norm_num)
  have h56 := ageOf_setAge d 56 (by norm_num)
  simp only [rawTotal, h48, h56, setAge_education, setAge_medical,
    setAge_functionalLimitations, setAge_workHistory]
  obtain ⟨hc1, hc2, hc3⟩ :=
    condLoop_age_mono CONDITION_SCORES d.medical.severity d.medical.conditions
  rw [hc2, hc3]
  have hedu := educationFactor_age_mono d.education.level
  have hg48 := gridFactor_48 d.education.level d.functionalLimitations
  have hg56 := gridFactor_nonneg 56 d.education.level d.functionalLimitations
  linarith

/-- C9: holding every other field fixed, changing `demographics.age` from
48 to 56 never decreases `calculateScore`'s total score. -/
theorem C9_age_48_56_monotone (cfg : ScoringConfig) (d : IntakeData) :
    (calculateScore cfg (setAge d (some 48))).totalScore
      ≤ (calculateScore cfg (setAge d (some 56))).totalScore := by
  have e48 : (calculateScore cfg (setAge d (some 48))).totalScore
      = totalScoreZ (setAge d (some 48)) := rfl
  have e56 : (calculateScore cfg (setAge d (some 56))).totalScore
      = totalScoreZ (setAge d (some 56)) := rfl
  rw [e48, e56]
  have h48 := ageOf_setAge d 48 (by norm_num)
  have h56 := ageOf_setAge d 56 (by norm_num)
  have hmult48 : (ageFactor 48).1 = 0.7 := by norm_num [ageFactor]
  have hmult56 : (ageFactor 56).1 = 1.35 := by norm_num [ageFactor]
  have hf48 : finalScoreQ (setAge d (some 48))
      = rawTotal (setAge d (some 48)) * 0.7 + (rawTotal (setAge d (some 48)) * 0.3) * 0.7 := by
    simp only [finalScoreQ, h48, hmult48]
  have hf56 : finalScoreQ (setAge d (some 56))
      = rawTotal (setAge d (some 56)) * 0.7 + (rawTotal (setAge d (some 56)) * 0.3) * 1.35 := by
    simp only [finalScoreQ, h56, hmult56]
  have hraw := rawTotal_age_mono d
  by_cases hneg : rawTotal (setAge d (some 48)) < 0
  · -- the 48-score clamps to 0, and every score is at least 0
    have hfneg : finalScoreQ (setAge d (some 48)) < 0 := by rw [hf48]; nlinarith
    have hr0 : jsRound (finalScoreQ (setAge d (some 48))) ≤ 0 := by
      have : jsRound (finalScoreQ (setAge d (some 48))) < 1 := by
        rw [jsRound, Int.floor_lt]
        push_cast
        linarith
      omega
    have hz : totalScoreZ (setAge d (some 48)) = 0 := by
      unfold totalScoreZ
      have hmin : min 100 (jsRound (finalScoreQ (setAge d (some 48))))
          = jsRound (finalScoreQ (setAge d (some 48))) := min_eq_right (by omega)
      rw [hmin]
      exact max_eq_left hr0
    rw [hz]
    exact le_max_left 0 _
  · push_neg at hneg
    have hfle : finalScoreQ (setAge d (some 48)) ≤ finalScoreQ (setAge d (some 56)) := by
      rw [hf48, hf56]
      nlinarith
    have hrle : jsRound (finalScoreQ (setAge d (some 48)))
        ≤ jsRound (finalScoreQ (setAge d (some 56))) := by
      unfold jsRound
      exact Int.floor_le_floor (by linarith)
    unfold totalScoreZ
    exact max_le_max (le_refl 0) (min_le_min (le_refl 100) hrle)
